import Mathlib

/-!
Verification of the core of `gh-linker-bot` (`src/gh_linker/utils.py`):
the supervised task runner (`create_task` / `_log_task_exception`),
the reaction predicate with disallowed-reaction cleanup (`reaction_check`),
and the reaction-gated wait protocol (`wait_for_deletion`).

The shallow embedding makes effects explicit:
  * platform calls issued by the coroutine become a trace (`List PCall`),
  * spawned background tasks become a list of `SpawnedTask` records,
  * log statements become a list of `LogEntry` records,
  * a possible raised Python exception becomes an `Except` value,
  * the results of outbound platform calls are supplied by an oracle
    `PCall → CallResult` representing the external platform.

The event stream consumed by `bot.wait_for("reaction_add", ...)` is modelled
as the list of `(reaction, user)` events delivered before the timeout
deadline; the deadline elapsing corresponds to that list being exhausted
with no event accepted by the check predicate.
-/

namespace GhLinker

/-- Python exception classes relevant to `utils.py`, by their runtime class.
The discord.py hierarchy is `NotFound <: HTTPException <: DiscordException
<: Exception` and `Forbidden <: HTTPException`; `asyncio.CancelledError`
is not an `Exception` subclass (Python >= 3.8); `asyncio.TimeoutError` and
`ValueError` are `Exception` subclasses. -/
inductive ExcClass where
  | Exception
  | DiscordException
  | HTTPException
  | NotFound
  | Forbidden
  | TimeoutError
  | CancelledError
  | ValueError
  deriving DecidableEq

/-- `isInstance c k` embeds Python `isinstance(e, K)` where `e`'s runtime
class is `c` and `K` is the class `k`: true iff `c` is `k` or a subclass. -/
def isInstance : ExcClass → ExcClass → Bool
  | .NotFound, .NotFound => true
  | .NotFound, .HTTPException => true
  | .NotFound, .DiscordException => true
  | .NotFound, .Exception => true
  | .Forbidden, .Forbidden => true
  | .Forbidden, .HTTPException => true
  | .Forbidden, .DiscordException => true
  | .Forbidden, .Exception => true
  | .HTTPException, .HTTPException => true
  | .HTTPException, .DiscordException => true
  | .HTTPException, .Exception => true
  | .DiscordException, .DiscordException => true
  | .DiscordException, .Exception => true
  | .TimeoutError, .TimeoutError => true
  | .TimeoutError, .Exception => true
  | .ValueError, .ValueError => true
  | .ValueError, .Exception => true
  | .CancelledError, .CancelledError => true
  | .Exception, .Exception => true
  | _, _ => false

/-- Log severities used by the module (`log.debug`, `log.error`). -/
inductive Severity where
  | debug
  | error
  deriving DecidableEq

/-- One emitted log record: severity, formatted message, and the optional
`exc_info` exception attached to it. -/
structure LogEntry where
  severity : Severity
  message : String
  excInfo : Option ExcClass
  deriving DecidableEq

/-- A discord user; `discord.abc.User.__eq__` compares by id, and
`str(user)` renders the name/discriminator pair, modelled by `username`. -/
structure User where
  id : Nat
  username : String
  deriving DecidableEq

/-- A reaction event payload: `str(reaction.emoji)` and
`reaction.message.id`.  discord.py renders `str(reaction)` as
`str(reaction.emoji)`, so the emoji string also stands for the reaction in
formatted messages. -/
structure Reaction where
  emoji : String
  messageId : Nat
  deriving DecidableEq

/-- A discord message as the core reads it: its id and its guild
association (`message.guild` is `None` outside a guild). -/
structure Message where
  id : Nat
  guild : Option Nat
  deriving DecidableEq

/-- Outbound platform commands issued by the core. -/
inductive PCall where
  | addReaction (msgId : Nat) (emoji : String)
  | removeReaction (msgId : Nat) (emoji : String) (userId : Nat)
  | clearReactions (msgId : Nat)
  | deleteMessage (msgId : Nat)
  deriving DecidableEq

/-- Result of one outbound platform call: success, or an exception of the
given runtime class. -/
inductive CallResult where
  | ok
  | err (e : ExcClass)
  deriving DecidableEq

/-- A background task spawned through `create_task`: the work it will
perform, the `suppressed_exceptions` tuple it was created with, and the
`name` argument (the task label). -/
structure SpawnedTask where
  work : PCall
  suppressed : List ExcClass
  taskName : String
  deriving DecidableEq

/-- How a finished `asyncio.Task` ended. -/
inductive TaskResult where
  | success
  | failed (e : ExcClass)
  | cancelled
  deriving DecidableEq

/-- `task.exception()`: raises `CancelledError` if the task was cancelled,
otherwise returns the exception the task failed with, if any. -/
def taskExceptionCall : TaskResult → Except ExcClass (Option ExcClass)
  | .cancelled => .error .CancelledError
  | .success => .ok none
  | .failed e => .ok (some e)

/-- `_log_task_exception` (utils.py lines 106-117): the done-callback
attached by `create_task`.  `name` is `task.get_name()`, `tid` is
`id(task)`.  The body runs under `contextlib.suppress(asyncio.CancelledError)`;
if the retrieved exception exists and is not an instance of the
`suppressed_exceptions` tuple, exactly one `log.error` record is emitted.
The returned `Except` is the exception channel of the callback itself. -/
def logTaskException (name : String) (tid : Nat) (result : TaskResult)
    (suppressed : List ExcClass) : Except ExcClass (List LogEntry) :=
  match taskExceptionCall result with
  | .error e =>
      if isInstance e .CancelledError then .ok [] else .error e
  | .ok none => .ok []
  | .ok (some e) =>
      if suppressed.any (fun k => isInstance e k) then .ok []
      else
        .ok [{ severity := .error,
               message := "Error in task " ++ name ++ " " ++ toString tid ++ "!",
               excInfo := some e }]

/-- The `right_reaction` conjunction of `reaction_check` (utils.py lines
133-137): the user is not the bot, the reaction targets `message_id`, and
the emoji string is in `allowed_emoji`. -/
def rightReaction (botUser : User) (reaction : Reaction) (user : User)
    (message_id : Nat) (allowed_emoji : List String) : Bool :=
  user != botUser
    && reaction.messageId == message_id
    && allowed_emoji.contains reaction.emoji

/-- The cleanup task spawned by `reaction_check` for a disallowed user
(utils.py lines 149-153): it removes that specific reaction by that user,
is created with `suppressed_exceptions=(discord.HTTPException,)` and the
label `remove_reaction-{reaction}-{reaction.message.id}-{user}`. -/
def removalTask (reaction : Reaction) (user : User) : SpawnedTask :=
  { work := .removeReaction reaction.messageId reaction.emoji user.id,
    suppressed := [.HTTPException],
    taskName := "remove_reaction-" ++ reaction.emoji ++ "-"
      ++ toString reaction.messageId ++ "-" ++ user.username }

/-- What one evaluation of `reaction_check` produces: its boolean value,
the background tasks it spawned, and the log records it emitted. -/
structure CheckResult where
  value : Bool
  spawned : List SpawnedTask
  logs : List LogEntry
  deriving DecidableEq

/-- `reaction_check` (utils.py lines 120-154). -/
def reaction_check (botUser : User) (reaction : Reaction) (user : User)
    (message_id : Nat) (allowed_emoji : List String)
    (allowed_users : List Nat) : CheckResult :=
  if rightReaction botUser reaction user message_id allowed_emoji then
    if allowed_users.contains user.id then
      { value := true,
        spawned := [],
        logs := [{ severity := .debug,
                   message := "Allowed reaction " ++ reaction.emoji ++ " by "
                     ++ user.username ++ " on " ++ toString reaction.messageId
                     ++ ".",
                   excInfo := none }] }
    else
      { value := false,
        spawned := [removalTask reaction user],
        logs := [{ severity := .debug,
                   message := "Removing reaction " ++ reaction.emoji ++ " by "
                     ++ user.username ++ " on " ++ toString reaction.messageId
                     ++ ": disallowed user.",
                   excInfo := none }] }
  else
    { value := false, spawned := [], logs := [] }

/-- The external world seen by one `wait_for_deletion` invocation: the bot
identity, the reaction-add events delivered before the timeout deadline
(in delivery order), and the platform responses to outbound calls. -/
structure Env where
  botUser : User
  events : List (Reaction × User)
  oracle : PCall → CallResult

/-- Terminal code paths of `wait_for_deletion`, as named by the design:
`Aborted` is the early return inside the attach loop (utils.py line 184),
`Deleted` the delete branch, `Expired` the timeout/clear branch (lines
193-201).  This field is specification-level instrumentation recording
which path ran; it is not data returned to the Python caller. -/
inductive Outcome where
  | Deleted
  | Expired
  | Aborted
  deriving DecidableEq

/-- The observable behaviour of one `wait_for_deletion` invocation:
platform calls issued in order, background tasks spawned, log records, the
Python return/raise channel (`.ok ()` is `return None`), and the terminal
path taken (`none` when an exception propagated). -/
structure WFDOutput where
  calls : List PCall
  spawned : List SpawnedTask
  logs : List LogEntry
  result : Except ExcClass Unit
  path : Option Outcome

/-- Result of the affordance-attachment loop (utils.py lines 175-184):
either all add-reaction calls succeeded, or a `discord.NotFound` caused
the early `return` (abort), or some other exception propagated.  Each
constructor carries the add-reaction calls issued. -/
inductive AttachResult where
  | done (calls : List PCall)
  | aborted (calls : List PCall)
  | raised (calls : List PCall) (e : ExcClass)
  deriving DecidableEq

/-- The `for emoji in deletion_emojis: await message.add_reaction(emoji)`
loop with its `except discord.NotFound: return` handler. -/
def attachEmojis (oracle : PCall → CallResult) (msgId : Nat) :
    List String → AttachResult
  | [] => .done []
  | e :: rest =>
    match oracle (PCall.addReaction msgId e) with
    | .ok =>
        match attachEmojis oracle msgId rest with
        | .done cs => .done (PCall.addReaction msgId e :: cs)
        | .aborted cs => .aborted (PCall.addReaction msgId e :: cs)
        | .raised cs k => .raised (PCall.addReaction msgId e :: cs) k
    | .err k =>
        if isInstance k .NotFound then .aborted [PCall.addReaction msgId e]
        else .raised [PCall.addReaction msgId e] k

/-- The platform calls a finished or interrupted attach loop issued. -/
def AttachResult.calls : AttachResult → List PCall
  | .done cs => cs
  | .aborted cs => cs
  | .raised cs _ => cs

/-- The attach step as guarded by `if attach_emojis:` (utils.py line 175). -/
def attachStep (oracle : PCall → CallResult) (msgId : Nat)
    (attach_emojis : Bool) (emojis : List String) : AttachResult :=
  if attach_emojis then attachEmojis oracle msgId emojis else .done []

/-- `bot.wait_for("reaction_add", check=check, timeout=timeout)`: events
are fed to the check predicate in delivery order until one is accepted;
exhausting the pre-deadline events means `asyncio.TimeoutError`.  Returns
the tasks spawned and logs emitted by the evaluated checks, and whether a
qualifying event resolved the wait. -/
def waitScan (botUser : User) (msgId : Nat) (emojis : List String)
    (uids : List Nat) :
    List (Reaction × User) → List SpawnedTask × List LogEntry × Bool
  | [] => ([], [], false)
  | (r, u) :: rest =>
    if (reaction_check botUser r u msgId emojis uids).value then
      ((reaction_check botUser r u msgId emojis uids).spawned,
       (reaction_check botUser r u msgId emojis uids).logs, true)
    else
      ((reaction_check botUser r u msgId emojis uids).spawned
         ++ (waitScan botUser msgId emojis uids rest).1,
       (reaction_check botUser r u msgId emojis uids).logs
         ++ (waitScan botUser msgId emojis uids rest).2.1,
       (waitScan botUser msgId emojis uids rest).2.2)

/-- The debug record logged on the premature-deletion abort (utils.py
lines 180-183). -/
def abortDebugEntry (msgId : Nat) : LogEntry :=
  { severity := .debug,
    message := "Aborting wait_for_deletion: message " ++ toString msgId
      ++ " deleted prematurely.",
    excInfo := none }

/-- The debug record logged when the terminal delete or clear hits
`discord.NotFound` (utils.py line 201). -/
def prematureDebugEntry (msgId : Nat) : LogEntry :=
  { severity := .debug,
    message := "wait_for_deletion: message " ++ toString msgId
      ++ " deleted prematurely.",
    excInfo := none }

/-- The terminal phase of `wait_for_deletion` (utils.py lines 193-201):
wait for a qualifying reaction, then delete on success or clear reactions
on timeout; the surrounding `except discord.NotFound` swallows a NotFound
from either terminal call.  `cs` are the calls already issued by the
attach step. -/
def terminalPhase (env : Env) (msgId : Nat) (uids : List Nat)
    (emojis : List String) (cs : List PCall) : WFDOutput :=
  match waitScan env.botUser msgId emojis uids env.events with
  | (ts, ls, true) =>
    match env.oracle (PCall.deleteMessage msgId) with
    | .ok =>
        { calls := cs ++ [PCall.deleteMessage msgId], spawned := ts, logs := ls,
          result := .ok (), path := some .Deleted }
    | .err k =>
        if isInstance k .NotFound then
          { calls := cs ++ [PCall.deleteMessage msgId], spawned := ts,
            logs := ls ++ [prematureDebugEntry msgId],
            result := .ok (), path := some .Deleted }
        else
          { calls := cs ++ [PCall.deleteMessage msgId], spawned := ts, logs := ls,
            result := .error k, path := none }
  | (ts, ls, false) =>
    match env.oracle (PCall.clearReactions msgId) with
    | .ok =>
        { calls := cs ++ [PCall.clearReactions msgId], spawned := ts, logs := ls,
          result := .ok (), path := some .Expired }
    | .err k =>
        if isInstance k .NotFound then
          { calls := cs ++ [PCall.clearReactions msgId], spawned := ts,
            logs := ls ++ [prematureDebugEntry msgId],
            result := .ok (), path := some .Expired }
        else
          { calls := cs ++ [PCall.clearReactions msgId], spawned := ts, logs := ls,
            result := .error k, path := none }

/-- `wait_for_deletion` (utils.py lines 157-201).  The `timeout` float
itself is abstracted into `env.events` (the events delivered before the
deadline); `ValueError` is the `raise ValueError("Message must be sent on
a guild")` precondition check. -/
def wait_for_deletion (env : Env) (message : Message) (user_ids : List Nat)
    (deletion_emojis : List String) (attach_emojis : Bool) : WFDOutput :=
  if message.guild.isNone then
    { calls := [], spawned := [], logs := [],
      result := .error .ValueError, path := none }
  else
    match attachStep env.oracle message.id attach_emojis deletion_emojis with
    | .raised cs k =>
        { calls := cs, spawned := [], logs := [],
          result := .error k, path := none }
    | .aborted cs =>
        { calls := cs, spawned := [],
          logs := [abortDebugEntry message.id],
          result := .ok (), path := some .Aborted }
    | .done cs =>
        terminalPhase env message.id user_ids deletion_emojis cs

/-! Helper lemmas about the attach loop, the wait scan and the terminal
phase, shared by the claim theorems below. -/

theorem attachEmojis_ok (oracle : PCall → CallResult) (msgId : Nat) :
    ∀ emojis : List String,
    (∀ e ∈ emojis, oracle (PCall.addReaction msgId e) = .ok) →
    attachEmojis oracle msgId emojis =
      .done (emojis.map (PCall.addReaction msgId)) := by
  intro emojis
  induction emojis with
  | nil => intro _; rfl
  | cons e rest ih =>
    intro h
    have he := h e (by simp)
    have hrest : ∀ x ∈ rest, oracle (PCall.addReaction msgId x) = .ok :=
      fun x hx => h x (by simp [hx])
    simp [attachEmojis, he, ih hrest]

theorem attachEmojis_abort (oracle : PCall → CallResult) (msgId : Nat) :
    ∀ (pre : List String) (e : String) (suf : List String) (k : ExcClass),
    (∀ x ∈ pre, oracle (PCall.addReaction msgId x) = .ok) →
    oracle (PCall.addReaction msgId e) = .err k →
    isInstance k .NotFound = true →
    attachEmojis oracle msgId (pre ++ e :: suf) =
      .aborted (pre.map (PCall.addReaction msgId) ++ [PCall.addReaction msgId e]) := by
  intro pre
  induction pre with
  | nil =>
    intro e suf k _ he hk
    simp [attachEmojis, he, hk]
  | cons p ps ih =>
    intro e suf k hpre he hk
    have hp := hpre p (by simp)
    have hps : ∀ x ∈ ps, oracle (PCall.addReaction msgId x) = .ok :=
      fun x hx => hpre x (by simp [hx])
    simp [attachEmojis, hp, ih e suf k hps he hk]

theorem attachEmojis_calls_add (oracle : PCall → CallResult) (msgId : Nat) :
    ∀ emojis : List String,
    ∀ c ∈ (attachEmojis oracle msgId emojis).calls,
    ∃ e, c = PCall.addReaction msgId e := by
  intro emojis
  induction emojis with
  | nil => intro c hc; simp [attachEmojis, AttachResult.calls] at hc
  | cons e rest ih =>
    intro c hc
    unfold attachEmojis at hc
    cases ho : oracle (PCall.addReaction msgId e) with
    | ok =>
      rw [ho] at hc
      cases hr : attachEmojis oracle msgId rest with
      | done cs =>
        rw [hr] at hc
        simp [AttachResult.calls] at hc
        rcases hc with hc | hc
        · exact ⟨e, hc⟩
        · exact ih c (by rw [hr]; simpa [AttachResult.calls] using hc)
      | aborted cs =>
        rw [hr] at hc
        simp [AttachResult.calls] at hc
        rcases hc with hc | hc
        · exact ⟨e, hc⟩
        · exact ih c (by rw [hr]; simpa [AttachResult.calls] using hc)
      | raised cs k =>
        rw [hr] at hc
        simp [AttachResult.calls] at hc
        rcases hc with hc | hc
        · exact ⟨e, hc⟩
        · exact ih c (by rw [hr]; simpa [AttachResult.calls] using hc)
    | err k =>
      rw [ho] at hc
      by_cases hk : isInstance k .NotFound <;>
        simp [hk, AttachResult.calls] at hc <;> exact ⟨e, hc⟩

theorem attachStep_calls_add (oracle : PCall → CallResult) (msgId : Nat)
    (attach : Bool) (emojis : List String) :
    ∀ c ∈ (attachStep oracle msgId attach emojis).calls,
    ∃ e, c = PCall.addReaction msgId e := by
  intro c hc
  unfold attachStep at hc
  cases attach with
  | true => exact attachEmojis_calls_add oracle msgId emojis c (by simpa using hc)
  | false => simp [AttachResult.calls] at hc

theorem waitScan_no_qualify (botUser : User) (msgId : Nat)
    (emojis : List String) (uids : List Nat)
    (hv : ∀ r u, (reaction_check botUser r u msgId emojis uids).value = false) :
    ∀ evs : List (Reaction × User),
    (waitScan botUser msgId emojis uids evs).2.2 = false := by
  intro evs
  induction evs with
  | nil => rfl
  | cons p rest ih =>
    rcases p with ⟨r, u⟩
    simp [waitScan, hv r u, ih]

theorem terminalPhase_calls (env : Env) (msgId : Nat) (uids : List Nat)
    (emojis : List String) (cs : List PCall) :
    ∃ c, (terminalPhase env msgId uids emojis cs).calls = cs ++ [c] ∧
      (c = PCall.deleteMessage msgId ∨ c = PCall.clearReactions msgId) := by
  unfold terminalPhase
  rcases hws : waitScan env.botUser msgId emojis uids env.events with ⟨ts, ls, q⟩
  cases q with
  | true =>
    cases env.oracle (PCall.deleteMessage msgId) with
    | ok => exact ⟨_, rfl, Or.inl rfl⟩
    | err k =>
      by_cases hk : isInstance k .NotFound <;> simp [hk]
  | false =>
    cases env.oracle (PCall.clearReactions msgId) with
    | ok => exact ⟨_, rfl, Or.inr rfl⟩
    | err k =>
      by_cases hk : isInstance k .NotFound <;> simp [hk]

theorem terminalPhase_result_ok (env : Env) (msgId : Nat) (uids : List Nat)
    (emojis : List String) (cs : List PCall) (o : Outcome)
    (h : (terminalPhase env msgId uids emojis cs).path = some o) :
    (terminalPhase env msgId uids emojis cs).result = .ok () := by
  unfold terminalPhase at h ⊢
  rcases hws : waitScan env.botUser msgId emojis uids env.events with ⟨ts, ls, q⟩
  rw [hws] at h
  cases q with
  | true =>
    cases ho : env.oracle (PCall.deleteMessage msgId) with
    | ok => simp [ho]
    | err k =>
      by_cases hk : isInstance k .NotFound <;> simp [ho, hk] at h ⊢
  | false =>
    cases ho : env.oracle (PCall.clearReactions msgId) with
    | ok => simp [ho]
    | err k =>
      by_cases hk : isInstance k .NotFound <;> simp [ho, hk] at h ⊢

/-! Concrete fixtures used by the closed witness statements. -/

/-- A concrete bot identity. -/
def botU : User := ⟨1, "ghlinker"⟩

/-- A concrete non-bot user. -/
def aliceU : User := ⟨2, "alice"⟩

/-- A concrete reaction on message 10. -/
def trashR : Reaction := ⟨"trash", 10⟩

/-- C2: an event satisfies the qualifying predicate iff the reacting user
is not the bot, the reaction targets `message_id`, and the emoji string is
in `allowed_emoji`; in particular a self-reaction never qualifies, and an
event whose emoji is outside the set never qualifies regardless of actor;
a non-qualifying event makes `reaction_check` return `False`. -/
theorem C2_qualifying_predicate (botUser : User) (r : Reaction) (u : User)
    (mid : Nat) (emojis : List String) (uids : List Nat) :
    (rightReaction botUser r u mid emojis = true ↔
      u ≠ botUser ∧ r.messageId = mid ∧ r.emoji ∈ emojis) ∧
    (u = botUser → rightReaction botUser r u mid emojis = false) ∧
    (r.emoji ∉ emojis → rightReaction botUser r u mid emojis = false) ∧
    (rightReaction botUser r u mid emojis = false →
      (reaction_check botUser r u mid emojis uids).value = false) := by
  refine ⟨?_, ?_, ?_, ?_⟩
  · simp [rightReaction, and_assoc]
  · intro h; subst h; simp [rightReaction]
  · intro h; simp [rightReaction, h]
  · intro h; simp [reaction_check, h]

/-- Closed instance of C2: the bot reacting to its own message never
qualifies. -/
theorem C2_qualifying_predicate_witness :
    rightReaction botU trashR botU 10 ["trash"] = false :=
  (C2_qualifying_predicate botU trashR botU 10 ["trash"] []).2.1 rfl

/-- C3: a message outside a guild (`message.guild is None`) makes
`wait_for_deletion` raise `ValueError` synchronously, with no platform
call issued and no task spawned. -/
theorem C3_invalid_context (env : Env) (message : Message)
    (user_ids : List Nat) (deletion_emojis : List String)
    (attach_emojis : Bool) (h : message.guild = none) :
    wait_for_deletion env message user_ids deletion_emojis attach_emojis =
      { calls := [], spawned := [], logs := [],
        result := .error .ValueError, path := none } := by
  simp [wait_for_deletion, h]

/-- Closed instance of C3 on a direct-message context. -/
theorem C3_invalid_context_witness :
    wait_for_deletion ⟨botU, [], fun _ => .ok⟩ ⟨7, none⟩ [] ["trash"] true =
      { calls := [], spawned := [], logs := [],
        result := .error .ValueError, path := none } :=
  C3_invalid_context ⟨botU, [], fun _ => .ok⟩ ⟨7, none⟩ [] ["trash"] true rfl

/-- C7: a qualifying event from a user outside `allowed_users` makes
`reaction_check` return `False` (so it cannot resolve the wait) and
spawns exactly one removal task, for that specific reaction and user. -/
theorem C7_disallowed_reaction (botUser : User) (r : Reaction) (u : User)
    (mid : Nat) (emojis : List String) (uids : List Nat)
    (hq : rightReaction botUser r u mid emojis = true)
    (hu : u.id ∉ uids) :
    (reaction_check botUser r u mid emojis uids).value = false ∧
    (reaction_check botUser r u mid emojis uids).spawned = [removalTask r u] ∧
    (removalTask r u).work = .removeReaction r.messageId r.emoji u.id := by
  refine ⟨?_, ?_, rfl⟩ <;> simp [reaction_check, hq, hu]

/-- Closed instance of C7: user 2 is not in `allowed_users = [3]`. -/
theorem C7_disallowed_reaction_witness :
    (reaction_check botU trashR aliceU 10 ["trash"] [3]).value = false ∧
    (reaction_check botU trashR aliceU 10 ["trash"] [3]).spawned =
      [removalTask trashR aliceU] ∧
    (removalTask trashR aliceU).work = .removeReaction 10 "trash" 2 :=
  C7_disallowed_reaction botU trashR aliceU 10 ["trash"] [3]
    (by decide) (by decide)

/-- C8: the completion observer logs nothing on cancellation, nothing on a
failure whose class is an instance of the suppressed tuple, and exactly
one error-severity record (carrying the task label, the task id token,
and the exception as context) on any other failure; in every case it
raises nothing to its caller. -/
theorem C8_completion_observer (name : String) (tid : Nat)
    (result : TaskResult) (suppressed : List ExcClass) :
    (result = .cancelled →
      logTaskException name tid result suppressed = .ok []) ∧
    (∀ e, result = .failed e →
      suppressed.any (fun k => isInstance e k) = true →
      logTaskException name tid result suppressed = .ok []) ∧
    (∀ e, result = .failed e →
      suppressed.any (fun k => isInstance e k) = false →
      logTaskException name tid result suppressed =
        .ok [{ severity := .error,
               message := "Error in task " ++ name ++ " "
                 ++ toString tid ++ "!",
               excInfo := some e }]) ∧
    (∃ logs, logTaskException name tid result suppressed = .ok logs) := by
  refine ⟨?_, ?_, ?_, ?_⟩
  · intro h; subst h; rfl
  · intro e h hs; subst h; simp [logTaskException, taskExceptionCall, hs]
  · intro e h hs; subst h; simp [logTaskException, taskExceptionCall, hs]
  · cases result with
    | success => exact ⟨[], rfl⟩
    | cancelled => exact ⟨[], rfl⟩
    | failed e =>
      by_cases hs : suppressed.any (fun k => isInstance e k) <;>
        simp [logTaskException, taskExceptionCall, hs]

/-- Closed instance of C8: a `ValueError` is not an `HTTPException`, so it
is logged once with full context. -/
theorem C8_completion_observer_witness :
    logTaskException "task-w" 5 (.failed .ValueError) [.HTTPException] =
      .ok [{ severity := .error,
             message := "Error in task " ++ "task-w" ++ " "
               ++ toString (5 : Nat) ++ "!",
             excInfo := some .ValueError }] :=
  (C8_completion_observer "task-w" 5 (.failed .ValueError)
    [.HTTPException]).2.2.1 .ValueError rfl (by decide)

theorem string_append_assoc (a b c : String) : a ++ b ++ c = a ++ (b ++ c) := by
  apply String.ext
  simp [String.data_append]

/-- C1 counterexample: `reaction_check` creates its cleanup task with
`suppressed_exceptions=(discord.HTTPException,)`, so a generic
`HTTPException` transport failure (which is not a `NotFound`) is
suppressed and produces zero error log entries, not exactly one. -/
theorem C1_counterexample :
    (reaction_check botU trashR aliceU 10 ["trash"] []).spawned =
      [removalTask trashR aliceU] ∧
    isInstance .HTTPException .NotFound = false ∧
    logTaskException (removalTask trashR aliceU).taskName 99
      (.failed .HTTPException) (removalTask trashR aliceU).suppressed =
      .ok [] := by
  refine ⟨?_, rfl, rfl⟩
  rfl

/-- C1 (amended): for every cleanup task spawned by `reaction_check`, a
failure of any class within `HTTPException` (this includes `NotFound` and
the generic transport failure) is suppressed with no error logged; only a
failure outside the `HTTPException` class produces exactly one error log
entry referencing the task label. -/
theorem C1_cleanup_task_logging (botUser : User) (r : Reaction) (u : User)
    (mid : Nat) (emojis : List String) (uids : List Nat)
    (t : SpawnedTask) (tid : Nat)
    (ht : t ∈ (reaction_check botUser r u mid emojis uids).spawned) :
    (∀ e, isInstance e .HTTPException = true →
      logTaskException t.taskName tid (.failed e) t.suppressed = .ok []) ∧
    (∀ e, isInstance e .HTTPException = false →
      ∃ entry, logTaskException t.taskName tid (.failed e) t.suppressed =
          .ok [entry] ∧
        entry.severity = .error ∧
        ∃ pre post, entry.message = pre ++ t.taskName ++ post) := by
  have hts : t.suppressed = [.HTTPException] := by
    unfold reaction_check at ht
    split at ht
    · split at ht
      · simp at ht
      · simp at ht; subst ht; rfl
    · simp at ht
  constructor
  · intro e he
    simp [logTaskException, taskExceptionCall, hts, he]
  · intro e he
    refine ⟨{ severity := .error,
              message := "Error in task " ++ t.taskName ++ " "
                ++ toString tid ++ "!",
              excInfo := some e }, ?_, rfl,
            "Error in task ", " " ++ toString tid ++ "!", ?_⟩
    · simp [logTaskException, taskExceptionCall, hts, he]
    · simp [string_append_assoc]

/-- Closed instance of the amended C1: the task spawned for user 2 on
message 10, failing with `NotFound`, logs nothing. -/
theorem C1_cleanup_task_logging_witness :
    logTaskException (removalTask trashR aliceU).taskName 99
      (.failed .NotFound) (removalTask trashR aliceU).suppressed = .ok [] :=
  (C1_cleanup_task_logging botU trashR aliceU 10 ["trash"] []
    (removalTask trashR aliceU) 99 (by decide)).1
    .NotFound rfl

/-- C10: whichever terminal path a `wait_for_deletion` session resolves
through (`Deleted`, `Expired` or `Aborted`), the coroutine returns the
same unit value `None`; the caller receives no value distinguishing the
outcomes. -/
theorem C10_unit_return (env : Env) (message : Message)
    (user_ids : List Nat) (deletion_emojis : List String)
    (attach_emojis : Bool) (o : Outcome)
    (h : (wait_for_deletion env message user_ids deletion_emojis
      attach_emojis).path = some o) :
    (wait_for_deletion env message user_ids deletion_emojis
      attach_emojis).result = .ok () := by
  unfold wait_for_deletion at h ⊢
  by_cases hg : message.guild.isNone
  · simp [hg] at h
  · rw [Bool.not_eq_true] at hg
    simp only [hg, Bool.false_eq_true, if_false] at h ⊢
    cases hA : attachStep env.oracle message.id attach_emojis deletion_emojis with
    | raised cs k => rw [hA] at h; simp at h
    | aborted cs => rfl
    | done cs =>
      rw [hA] at h
      exact terminalPhase_result_ok env message.id user_ids deletion_emojis
        cs o h

/-- Closed instance of C10 on the `Expired` path. -/
theorem C10_unit_return_witness :
    (wait_for_deletion ⟨botU, [], fun _ => .ok⟩ ⟨5, some 1⟩ [] []
      false).result = .ok () :=
  C10_unit_return ⟨botU, [], fun _ => .ok⟩ ⟨5, some 1⟩ [] [] false
    .Expired rfl

theorem terminalPhase_no_delete (env : Env) (msgId : Nat) (uids : List Nat)
    (emojis : List String) (cs : List PCall)
    (hq : (waitScan env.botUser msgId emojis uids env.events).2.2 = false)
    (hcs : ∀ c ∈ cs, ∃ e, c = PCall.addReaction msgId e) :
    (∀ m, PCall.deleteMessage m ∉
      (terminalPhase env msgId uids emojis cs).calls) ∧
    (terminalPhase env msgId uids emojis cs).path ≠ some .Deleted := by
  rcases hws : waitScan env.botUser msgId emojis uids env.events with ⟨ts, ls, q⟩
  rw [hws] at hq
  simp at hq
  subst hq
  unfold terminalPhase
  rw [hws]
  have hnd : ∀ m, PCall.deleteMessage m ∉ cs ++ [PCall.clearReactions msgId] := by
    intro m hm
    rcases List.mem_append.1 hm with hc | hc
    · obtain ⟨e, he⟩ := hcs _ hc
      simp at he
    · simp at hc
  cases ho : env.oracle (PCall.clearReactions msgId) with
  | ok => exact ⟨hnd, by simp⟩
  | err k =>
    by_cases hk : isInstance k .NotFound <;> simp only [hk] <;>
      exact ⟨hnd, by simp⟩

/-- C4: with `attach_emojis` true (and a guild message), an add-reaction
command is issued for every emoji of `deletion_emojis` in the sequence
order when all of them succeed; and if one of them fails with `NotFound`,
the session resolves `Aborted` right there — no wait is entered, no task
spawned, and no platform call issued beyond the failing add-reaction. -/
theorem C4_attach_affordance (env : Env) (message : Message)
    (user_ids : List Nat) (deletion_emojis : List String) (g : Nat)
    (hg : message.guild = some g) :
    ((∀ e ∈ deletion_emojis,
        env.oracle (PCall.addReaction message.id e) = .ok) →
      ∃ rest, (wait_for_deletion env message user_ids deletion_emojis
          true).calls =
        deletion_emojis.map (PCall.addReaction message.id) ++ rest) ∧
    (∀ pre e suf k, deletion_emojis = pre ++ e :: suf →
      (∀ x ∈ pre, env.oracle (PCall.addReaction message.id x) = .ok) →
      env.oracle (PCall.addReaction message.id e) = .err k →
      isInstance k .NotFound = true →
      wait_for_deletion env message user_ids deletion_emojis true =
        { calls := pre.map (PCall.addReaction message.id)
            ++ [PCall.addReaction message.id e],
          spawned := [], logs := [abortDebugEntry message.id],
          result := .ok (), path := some .Aborted }) := by
  constructor
  · intro hok
    have hA : attachStep env.oracle message.id true deletion_emojis =
        .done (deletion_emojis.map (PCall.addReaction message.id)) := by
      simp [attachStep,
        attachEmojis_ok env.oracle message.id deletion_emojis hok]
    obtain ⟨c, hc, _⟩ := terminalPhase_calls env message.id user_ids
      deletion_emojis (deletion_emojis.map (PCall.addReaction message.id))
    exact ⟨[c], by simp [wait_for_deletion, hg, hA, hc]⟩
  · intro pre e suf k hsplit hok he hk
    have hA : attachStep env.oracle message.id true deletion_emojis =
        .aborted (pre.map (PCall.addReaction message.id)
          ++ [PCall.addReaction message.id e]) := by
      rw [hsplit]
      simp [attachStep,
        attachEmojis_abort env.oracle message.id pre e suf k hok he hk]
    simp [wait_for_deletion, hg, hA]

/-- Oracle for the closed C4 instance: adding emoji "b" hits `NotFound`,
everything else succeeds. -/
def oracleC4 : PCall → CallResult
  | .addReaction _ "b" => .err .NotFound
  | _ => .ok

/-- Closed instance of C4: the second affordance emoji hits `NotFound`,
so the session aborts after exactly the two add-reaction calls. -/
theorem C4_attach_affordance_witness :
    wait_for_deletion ⟨botU, [], oracleC4⟩ ⟨5, some 1⟩ [] ["a", "b"] true =
      { calls := [PCall.addReaction 5 "a", PCall.addReaction 5 "b"],
        spawned := [], logs := [abortDebugEntry 5],
        result := .ok (), path := some .Aborted } := by
  have h := (C4_attach_affordance ⟨botU, [], oracleC4⟩ ⟨5, some 1⟩ []
    ["a", "b"] 1 rfl).2 ["a"] "b" [] .NotFound rfl (by decide) rfl rfl
  simpa using h

/-- C5: when a qualifying reaction from an authorized user arrives before
the deadline, a delete command is issued (and no clear-reactions); the
session resolves `Deleted` both when the delete succeeds and when it
fails with `NotFound`, raising nothing to the caller. -/
theorem C5_deleted_path (env : Env) (message : Message)
    (user_ids : List Nat) (deletion_emojis : List String)
    (attach_emojis : Bool) (g : Nat) (cs : List PCall)
    (hg : message.guild = some g)
    (hA : attachStep env.oracle message.id attach_emojis deletion_emojis =
      .done cs)
    (hq : (waitScan env.botUser message.id deletion_emojis user_ids
      env.events).2.2 = true) :
    ((wait_for_deletion env message user_ids deletion_emojis
        attach_emojis).calls = cs ++ [PCall.deleteMessage message.id]) ∧
    (∀ m, PCall.clearReactions m ∉
      (wait_for_deletion env message user_ids deletion_emojis
        attach_emojis).calls) ∧
    (env.oracle (PCall.deleteMessage message.id) = .ok →
      (wait_for_deletion env message user_ids deletion_emojis
        attach_emojis).result = .ok () ∧
      (wait_for_deletion env message user_ids deletion_emojis
        attach_emojis).path = some .Deleted) ∧
    (∀ k, env.oracle (PCall.deleteMessage message.id) = .err k →
      isInstance k .NotFound = true →
      (wait_for_deletion env message user_ids deletion_emojis
        attach_emojis).result = .ok () ∧
      (wait_for_deletion env message user_ids deletion_emojis
        attach_emojis).path = some .Deleted) := by
  have hcs : ∀ c ∈ cs, ∃ e, c = PCall.addReaction message.id e := by
    intro c hc
    exact attachStep_calls_add env.oracle message.id attach_emojis
      deletion_emojis c (by rw [hA]; exact hc)
  have hwfd : wait_for_deletion env message user_ids deletion_emojis
      attach_emojis = terminalPhase env message.id user_ids deletion_emojis
      cs := by
    simp [wait_for_deletion, hg, hA]
  rcases hws : waitScan env.botUser message.id deletion_emojis user_ids
    env.events with ⟨ts, ls, q⟩
  rw [hws] at hq
  simp at hq
  subst hq
  have h1 : (terminalPhase env message.id user_ids deletion_emojis cs).calls
      = cs ++ [PCall.deleteMessage message.id] := by
    unfold terminalPhase
    rw [hws]
    cases ho : env.oracle (PCall.deleteMessage message.id) with
    | ok => rfl
    | err k => by_cases hk : isInstance k .NotFound <;> simp [hk]
  rw [hwfd]
  refine ⟨h1, ?_, ?_, ?_⟩
  · intro m hm
    rw [h1] at hm
    rcases List.mem_append.1 hm with hc | hc
    · obtain ⟨e, he⟩ := hcs _ hc
      simp at he
    · simp at hc
  · intro ho
    unfold terminalPhase
    rw [hws]
    simp [ho]
  · intro k ho hk
    unfold terminalPhase
    rw [hws]
    simp [ho, hk]

/-- Oracle for the closed C5 instance: the delete hits `NotFound` because
the message is already gone; everything else succeeds. -/
def oracleC5 : PCall → CallResult
  | .deleteMessage _ => .err .NotFound
  | _ => .ok

/-- Closed instance of C5: authorized user 2 reacts with a qualifying
emoji, the delete hits `NotFound`, and the session still resolves
`Deleted` without raising. -/
theorem C5_deleted_path_witness :
    (wait_for_deletion ⟨botU, [(⟨"t", 5⟩, aliceU)], oracleC5⟩ ⟨5, some 1⟩
      [2] ["t"] false).result = .ok () ∧
    (wait_for_deletion ⟨botU, [(⟨"t", 5⟩, aliceU)], oracleC5⟩ ⟨5, some 1⟩
      [2] ["t"] false).path = some .Deleted :=
  (C5_deleted_path ⟨botU, [(⟨"t", 5⟩, aliceU)], oracleC5⟩ ⟨5, some 1⟩ [2]
    ["t"] false 1 [] rfl rfl (by decide)).2.2.2 .NotFound rfl rfl

/-- C6: when the deadline elapses with no qualifying authorized event, a
clear-all-reactions command is issued and no delete; the session resolves
`Expired` both when the clear succeeds and when it fails with `NotFound`,
raising nothing to the caller. -/
theorem C6_expired_path (env : Env) (message : Message)
    (user_ids : List Nat) (deletion_emojis : List String)
    (attach_emojis : Bool) (g : Nat) (cs : List PCall)
    (hg : message.guild = some g)
    (hA : attachStep env.oracle message.id attach_emojis deletion_emojis =
      .done cs)
    (hq : (waitScan env.botUser message.id deletion_emojis user_ids
      env.events).2.2 = false) :
    ((wait_for_deletion env message user_ids deletion_emojis
        attach_emojis).calls = cs ++ [PCall.clearReactions message.id]) ∧
    (∀ m, PCall.deleteMessage m ∉
      (wait_for_deletion env message user_ids deletion_emojis
        attach_emojis).calls) ∧
    (env.oracle (PCall.clearReactions message.id) = .ok →
      (wait_for_deletion env message user_ids deletion_emojis
        attach_emojis).result = .ok () ∧
      (wait_for_deletion env message user_ids deletion_emojis
        attach_emojis).path = some .Expired) ∧
    (∀ k, env.oracle (PCall.clearReactions message.id) = .err k →
      isInstance k .NotFound = true →
      (wait_for_deletion env message user_ids deletion_emojis
        attach_emojis).result = .ok () ∧
      (wait_for_deletion env message user_ids deletion_emojis
        attach_emojis).path = some .Expired) := by
  have hcs : ∀ c ∈ cs, ∃ e, c = PCall.addReaction message.id e := by
    intro c hc
    exact attachStep_calls_add env.oracle message.id attach_emojis
      deletion_emojis c (by rw [hA]; exact hc)
  have hwfd : wait_for_deletion env message user_ids deletion_emojis
      attach_emojis = terminalPhase env message.id user_ids deletion_emojis
      cs := by
    simp [wait_for_deletion, hg, hA]
  rcases hws : waitScan env.botUser message.id deletion_emojis user_ids
    env.events with ⟨ts, ls, q⟩
  rw [hws] at hq
  simp at hq
  subst hq
  have h1 : (terminalPhase env message.id user_ids deletion_emojis cs).calls
      = cs ++ [PCall.clearReactions message.id] := by
    unfold terminalPhase
    rw [hws]
    cases ho : env.oracle (PCall.clearReactions message.id) with
    | ok => rfl
    | err k => by_cases hk : isInstance k .NotFound <;> simp [hk]
  rw [hwfd]
  refine ⟨h1, ?_, ?_, ?_⟩
  · intro m hm
    rw [h1] at hm
    rcases List.mem_append.1 hm with hc | hc
    · obtain ⟨e, he⟩ := hcs _ hc
      simp at he
    · simp at hc
  · intro ho
    unfold terminalPhase
    rw [hws]
    simp [ho]
  · intro k ho hk
    unfold terminalPhase
    rw [hws]
    simp [ho, hk]

/-- Closed instance of C6: no event arrives before the deadline, the
clear succeeds, and the session resolves `Expired` with exactly one
clear-reactions call and no delete. -/
theorem C6_expired_path_witness :
    ((wait_for_deletion ⟨botU, [], fun _ => .ok⟩ ⟨6, some 1⟩ [2] []
        false).calls = [PCall.clearReactions 6]) ∧
    (wait_for_deletion ⟨botU, [], fun _ => .ok⟩ ⟨6, some 1⟩ [2] []
        false).result = .ok () ∧
    (wait_for_deletion ⟨botU, [], fun _ => .ok⟩ ⟨6, some 1⟩ [2] []
        false).path = some .Expired := by
  have h := C6_expired_path ⟨botU, [], fun _ => .ok⟩ ⟨6, some 1⟩ [2] []
    false 1 [] rfl rfl rfl
  exact ⟨by simpa using h.1, (h.2.2.1 rfl).1, (h.2.2.1 rfl).2⟩

/-- C9: with an empty authorized-user list or an empty qualifying-emoji
list, no reaction event can ever make `reaction_check` return `True`, so
the session never issues a delete command and can never resolve
`Deleted` — only `Expired` or `Aborted` (or a propagated failure). -/
theorem C9_empty_sets (env : Env) (message : Message)
    (user_ids : List Nat) (deletion_emojis : List String)
    (attach_emojis : Bool)
    (h : user_ids = [] ∨ deletion_emojis = []) :
    (∀ r u, (reaction_check env.botUser r u message.id deletion_emojis
      user_ids).value = false) ∧
    (∀ m, PCall.deleteMessage m ∉
      (wait_for_deletion env message user_ids deletion_emojis
        attach_emojis).calls) ∧
    (wait_for_deletion env message user_ids deletion_emojis
      attach_emojis).path ≠ some .Deleted := by
  have hv : ∀ r u, (reaction_check env.botUser r u message.id
      deletion_emojis user_ids).value = false := by
    intro r u
    rcases h with h | h
    · subst h
      unfold reaction_check
      split <;> simp
    · subst h
      have hr : rightReaction env.botUser r u message.id [] = false := by
        simp [rightReaction]
      simp [reaction_check, hr]
  have hq : (waitScan env.botUser message.id deletion_emojis user_ids
      env.events).2.2 = false :=
    waitScan_no_qualify env.botUser message.id deletion_emojis user_ids hv
      env.events
  refine ⟨hv, ?_, ?_⟩ <;>
  · unfold wait_for_deletion
    by_cases hg : message.guild.isNone
    · simp [hg]
    · rw [Bool.not_eq_true] at hg
      simp only [hg, Bool.false_eq_true, if_false]
      cases hA : attachStep env.oracle message.id attach_emojis
          deletion_emojis with
      | raised cs k =>
          first
            | (intro m hm
               obtain ⟨e, he⟩ := attachStep_calls_add env.oracle message.id
                 attach_emojis deletion_emojis _ (by rw [hA]; exact hm)
               simp at he)
            | simp
      | aborted cs =>
          first
            | (intro m hm
               obtain ⟨e, he⟩ := attachStep_calls_add env.oracle message.id
                 attach_emojis deletion_emojis _ (by rw [hA]; exact hm)
               simp at he)
            | simp
      | done cs =>
          have hcs : ∀ c ∈ cs, ∃ e, c = PCall.addReaction message.id e := by
            intro c hc
            exact attachStep_calls_add env.oracle message.id attach_emojis
              deletion_emojis c (by rw [hA]; exact hc)
          first
            | exact (terminalPhase_no_delete env message.id user_ids
                deletion_emojis cs hq hcs).1
            | exact (terminalPhase_no_delete env message.id user_ids
                deletion_emojis cs hq hcs).2

/-- Closed instance of C9: empty authorized-user list, a reaction event
arrives but cannot qualify, and the session resolves `Expired` with no
delete call. -/
theorem C9_empty_sets_witness :
    (reaction_check botU ⟨"t", 8⟩ aliceU 8 ["t"] []).value = false ∧
    (wait_for_deletion ⟨botU, [(⟨"t", 8⟩, aliceU)], fun _ => .ok⟩
      ⟨8, some 1⟩ [] ["t"] false).path ≠ some .Deleted := by
  have h := C9_empty_sets ⟨botU, [(⟨"t", 8⟩, aliceU)], fun _ => .ok⟩
    ⟨8, some 1⟩ [] ["t"] false (Or.inl rfl)
  exact ⟨h.1 ⟨"t", 8⟩ aliceU, h.2.2⟩

end GhLinker
